import Mathlib

/-!
Verification of the OmniMIDI Audio Bus (`OmniMIDI/AudioBus.h`), the shared-memory
transport between the synth and the Permafrost effects host.

The embedding is a sequential shallow model: the process-global variables and the
shared-memory header are gathered into one `BusState` record, and each C function
becomes a pure state-passing Lean function.  C `ULONGLONG` / `DWORD` arithmetic is
`Nat` with an explicit modulus; `float` meter values are exact rationals; mutex
acquisitions whose success depends on the environment take an explicit `lockOk`
argument; clock reads (`GetQPCTicks`, `GetTickCount64`) take an explicit `tick`
argument; the outcome of the wait on the `ProcessedReady` event is an explicit
`hostResponds` argument.  `AudioBus_ProcessAudioFrame` additionally returns a
trace of the externally visible steps it performed, so that ordering claims
(liveness check before swap / signal, no waits issued in direct mode) can be
stated.
-/

namespace AudioBus

/-- `AUDIOBUS_FLAG_ACTIVE` (0x0001). -/
def FLAG_ACTIVE : Nat := 1

/-- `AUDIOBUS_FLAG_PANIC_REQUEST` (0x0002). -/
def FLAG_PANIC_REQUEST : Nat := 2

/-- `AUDIOBUS_FLAG_PANIC_ACK` (0x0004). -/
def FLAG_PANIC_ACK : Nat := 4

/-- `AUDIOBUS_FLAG_AUDIO_ENABLED` (0x0008). -/
def FLAG_AUDIO_ENABLED : Nat := 8

/-- `AUDIOBUS_FLAG_VST_ACTIVE` (0x0010). -/
def FLAG_VST_ACTIVE : Nat := 16

/-- `AUDIOBUS_NUM_CHANNELS`. -/
def NUM_CHANNELS : Nat := 16

/-- `AUDIOBUS_BUFFER_SAMPLES`. -/
def BUFFER_SAMPLES : Nat := 2048

/-- `AUDIOBUS_STEREO`. -/
def STEREO : Nat := 2

/-- `AUDIOBUS_LEVEL_DECAY` (0.92f), as an exact rational. -/
def LEVEL_DECAY : ℚ := 23 / 25

/-- Modulus of C `ULONGLONG` arithmetic. -/
def U64 : Nat := 2 ^ 64

/-- Modulus of C `DWORD` arithmetic. -/
def U32 : Nat := 2 ^ 32

/-- `(flags & mask) != 0`. -/
def testFlag (f m : Nat) : Bool := f &&& m != 0

/-- `flags |= mask`. -/
def setFlag (f m : Nat) : Nat := f ||| m

/-- `flags &= ~mask`, with the complement taken at `DWORD` width. -/
def clearFlag (f m : Nat) : Nat := f &&& (4294967295 ^^^ m)

/-- `AudioBusTakeoverState`: `Direct=0, Pending=1, Active=2, Releasing=3`. -/
inductive TakeoverState
  | direct
  | pending
  | active
  | releasing
deriving DecidableEq

/-- The process-global bus state: the shared-memory `AudioBusHeader` fields that the
claims touch, together with the synth-process globals (`g_AudioBusInitialized`,
`g_MasterPeakL/R`, `g_ChannelPeaksL/R`).  Fields not relevant to any claim
(magic bytes, version, process id, accumulation buffers) are omitted. -/
structure BusState where
  initialized : Bool
  flags : Nat
  takeoverState : TakeoverState
  heartbeatCounter : Nat
  timestamp : Nat
  sampleRate : Nat
  qpcFrequency : Nat
  masterPeakL : ℚ
  masterPeakR : ℚ
  totalVoices : Nat
  cpuUsage : ℚ
  lastMidiEventTime : Nat
  lastSynthCompleteTime : Nat
  lastAudioOutputTime : Nat
  lastSharedMemWriteTime : Nat
  lastSharedMemReadTime : Nat
  outputBufferLatencyUs : Nat
  asioInputLatencyUs : Nat
  currentEngine : Nat
  outWriteIndex : Nat
  outReadIndex : Nat
  inWriteIndex : Nat
  inReadIndex : Nat
  outFrameCounter : Nat
  inFrameCounter : Nat
  chPeakL : Fin 16 → ℚ
  chPeakR : Fin 16 → ℚ
  chVoices : Fin 16 → Nat
  gMasterPeakL : ℚ
  gMasterPeakR : ℚ
  gChannelPeaksL : Fin 16 → ℚ
  gChannelPeaksR : Fin 16 → ℚ

/-- The state after a successful `AudioBus_Create`: region zeroed, magic and version
stamped, `Flags = AUDIOBUS_FLAG_ACTIVE`, `TakeoverState = TAKEOVER_DIRECT`, all
counters and indices zero.  `freq` is the cached QPC frequency, `sr` the
configured sample rate, `tick` the `GetTickCount64` value at creation. -/
def AudioBus_Create (freq sr tick : Nat) : BusState where
  initialized := true
  flags := FLAG_ACTIVE
  takeoverState := .direct
  heartbeatCounter := 0
  timestamp := tick
  sampleRate := sr
  qpcFrequency := freq
  masterPeakL := 0
  masterPeakR := 0
  totalVoices := 0
  cpuUsage := 0
  lastMidiEventTime := 0
  lastSynthCompleteTime := 0
  lastAudioOutputTime := 0
  lastSharedMemWriteTime := 0
  lastSharedMemReadTime := 0
  outputBufferLatencyUs := 0
  asioInputLatencyUs := 0
  currentEngine := 0
  outWriteIndex := 0
  outReadIndex := 0
  inWriteIndex := 0
  inReadIndex := 0
  outFrameCounter := 0
  inFrameCounter := 0
  chPeakL := fun _ => 0
  chPeakR := fun _ => 0
  chVoices := fun _ => 0
  gMasterPeakL := 0
  gMasterPeakR := 0
  gChannelPeaksL := fun _ => 0
  gChannelPeaksR := fun _ => 0

/-- `AudioBus_Destroy`: clears the flags, forces `TAKEOVER_DIRECT`, unmaps (modelled
by `initialized := false`). -/
def AudioBus_Destroy (s : BusState) : BusState :=
  if s.initialized then
    { s with flags := 0, takeoverState := .direct, initialized := false }
  else s

/-- `AudioBus_TicksToMicroseconds`, with the C `ULONGLONG` multiplication made
explicit: the product `ticks * 1000000ULL` wraps at `2 ^ 64` before the division. -/
def AudioBus_TicksToMicroseconds (freq ticks : Nat) : Nat :=
  if freq = 0 then 0 else (ticks * 1000000 % U64) / freq

/-- `AudioBus_UpdateLevels`: asymmetric one-pole smoothing of the local master peaks
(always), then a non-blocking try-lock write of the header fields (`lockOk`). -/
def AudioBus_UpdateLevels (s : BusState) (masterL masterR : ℚ) (totalVoices : Nat)
    (cpuUsage : ℚ) (lockOk : Bool) (tick : Nat) : BusState :=
  if s.initialized then
    let newL := if masterL > s.gMasterPeakL then masterL else s.gMasterPeakL * LEVEL_DECAY
    let newR := if masterR > s.gMasterPeakR then masterR else s.gMasterPeakR * LEVEL_DECAY
    let s1 := { s with gMasterPeakL := newL, gMasterPeakR := newR }
    if lockOk then
      { s1 with masterPeakL := newL, masterPeakR := newR, totalVoices := totalVoices,
                cpuUsage := cpuUsage, timestamp := tick }
    else s1
  else s

/-- `AudioBus_UpdateChannelVoices`. -/
def AudioBus_UpdateChannelVoices (s : BusState) (channel voiceCount : Nat)
    (lockOk : Bool) : BusState :=
  if s.initialized then
    if channel < NUM_CHANNELS then
      if lockOk then
        { s with chVoices := fun j => if (j : Nat) = channel then voiceCount else s.chVoices j }
      else s
    else s
  else s

/-- `AudioBus_UpdateChannelLevels`: per-channel asymmetric one-pole smoothing
(always, given valid bounds), then a try-lock write of the header fields. -/
def AudioBus_UpdateChannelLevels (s : BusState) (channel : Nat) (peakL peakR : ℚ)
    (lockOk : Bool) : BusState :=
  if s.initialized then
    if h : channel < NUM_CHANNELS then
      let i : Fin 16 := ⟨channel, h⟩
      let newL := if peakL > s.gChannelPeaksL i then peakL else s.gChannelPeaksL i * LEVEL_DECAY
      let newR := if peakR > s.gChannelPeaksR i then peakR else s.gChannelPeaksR i * LEVEL_DECAY
      let s1 := { s with
        gChannelPeaksL := fun j => if j = i then newL else s.gChannelPeaksL j,
        gChannelPeaksR := fun j => if j = i then newR else s.gChannelPeaksR j }
      if lockOk then
        { s1 with
          chPeakL := fun j => if j = i then newL else s.chPeakL j,
          chPeakR := fun j => if j = i then newR else s.chPeakR j }
      else s1
    else s
  else s

/-- `AudioBus_UpdateAllChannelVoices`: writes every channel voice count and the
`DWORD` running total. -/
def AudioBus_UpdateAllChannelVoices (s : BusState) (voiceCounts : Fin 16 → Nat)
    (lockOk : Bool) : BusState :=
  if s.initialized then
    if lockOk then
      { s with chVoices := voiceCounts,
               totalVoices := (List.finRange 16).foldl (fun t i => (t + voiceCounts i) % U32) 0 }
    else s
  else s

/-- `AudioBus_CheckPanicRequest`: try-lock read of the `PanicRequest` bit. -/
def AudioBus_CheckPanicRequest (s : BusState) (lockOk : Bool) : Bool :=
  if s.initialized then
    if lockOk then testFlag s.flags FLAG_PANIC_REQUEST else false
  else false

/-- `AudioBus_AcknowledgePanic`: under the mutex (infinite wait, modelled as always
acquired) clears `PanicRequest` and sets `PanicAck`. -/
def AudioBus_AcknowledgePanic (s : BusState) : BusState :=
  if s.initialized then
    { s with flags := setFlag (clearFlag s.flags FLAG_PANIC_REQUEST) FLAG_PANIC_ACK }
  else s

/-- `AudioBus_RequestPanic`: under the mutex sets `PanicRequest` and clears
`PanicAck`. -/
def AudioBus_RequestPanic (s : BusState) : BusState :=
  if s.initialized then
    { s with flags := clearFlag (setFlag s.flags FLAG_PANIC_REQUEST) FLAG_PANIC_ACK }
  else s

/-- `AudioBus_ClearPanicAck`: try-lock clear of the `PanicAck` bit. -/
def AudioBus_ClearPanicAck (s : BusState) (lockOk : Bool) : BusState :=
  if s.initialized then
    if lockOk then { s with flags := clearFlag s.flags FLAG_PANIC_ACK } else s
  else s

/-- `AudioBus_SetSampleRate`. -/
def AudioBus_SetSampleRate (s : BusState) (sampleRate : Nat) : BusState :=
  if s.initialized then { s with sampleRate := sampleRate } else s

/-- `AudioBus_RecordMidiEvent` (no mutex; single 64-bit store). -/
def AudioBus_RecordMidiEvent (s : BusState) (tick : Nat) : BusState :=
  if s.initialized then { s with lastMidiEventTime := tick } else s

/-- `AudioBus_RecordSynthComplete`. -/
def AudioBus_RecordSynthComplete (s : BusState) (tick : Nat) : BusState :=
  if s.initialized then { s with lastSynthCompleteTime := tick } else s

/-- `AudioBus_RecordAudioOutput`. -/
def AudioBus_RecordAudioOutput (s : BusState) (tick : Nat) : BusState :=
  if s.initialized then { s with lastAudioOutputTime := tick } else s

/-- `AudioBus_UpdateLatencyInfo`. -/
def AudioBus_UpdateLatencyInfo (s : BusState) (outputLatencyUs asioInputLatencyUs engine : Nat)
    (lockOk : Bool) : BusState :=
  if s.initialized then
    if lockOk then
      { s with outputBufferLatencyUs := outputLatencyUs,
               asioInputLatencyUs := asioInputLatencyUs, currentEngine := engine }
    else s
  else s

/-- `AudioBus_IsTakeoverActive`. -/
def AudioBus_IsTakeoverActive (s : BusState) : Bool :=
  if s.initialized then s.takeoverState = .active else false

/-- `AudioBus_RequestTakeover`: under the mutex (100 ms bounded wait, success
`lockOk`), `DIRECT → PENDING` and set the `AudioEnabled` flag; otherwise no-op. -/
def AudioBus_RequestTakeover (s : BusState) (lockOk : Bool) : BusState :=
  if s.initialized then
    if lockOk then
      if s.takeoverState = .direct then
        { s with takeoverState := .pending, flags := setFlag s.flags FLAG_AUDIO_ENABLED }
      else s
    else s
  else s

/-- `AudioBus_ReleaseTakeover`: under the mutex, `ACTIVE/PENDING → RELEASING`;
otherwise no-op. -/
def AudioBus_ReleaseTakeover (s : BusState) (lockOk : Bool) : BusState :=
  if s.initialized then
    if lockOk then
      if s.takeoverState = .active ∨ s.takeoverState = .pending then
        { s with takeoverState := .releasing }
      else s
    else s
  else s

/-- `AudioBus_ProcessFrameBoundary`: commits `PENDING → ACTIVE`, and
`RELEASING → DIRECT` clearing the `AudioEnabled` flag. -/
def AudioBus_ProcessFrameBoundary (s : BusState) : BusState :=
  if s.initialized then
    match s.takeoverState with
    | .pending => { s with takeoverState := .active }
    | .releasing =>
      { s with
          takeoverState := .direct,
          flags := clearFlag s.flags FLAG_AUDIO_ENABLED }
    | _ => s
  else s

/-- `AudioBus_SwapOutBuffer`: `OutWriteIndex ← (OutWriteIndex + 1) & 1`, atomic
64-bit increment of `OutFrameCounter`, stamp of the last shared-memory write time. -/
def AudioBus_SwapOutBuffer (s : BusState) (tick : Nat) : BusState :=
  if s.initialized then
    { s with outWriteIndex := (s.outWriteIndex + 1) &&& 1,
             outFrameCounter := (s.outFrameCounter + 1) % U64,
             lastSharedMemWriteTime := tick }
  else s

/-- `AudioBus_IncrementHeartbeat`: atomic 64-bit increment. -/
def AudioBus_IncrementHeartbeat (s : BusState) : BusState :=
  if s.initialized then
    { s with heartbeatCounter := (s.heartbeatCounter + 1) % U64 }
  else s

/-- `AudioBus_ReadProcessedAudio`: reads from the IN buffer at
`(InWriteIndex + 1) & 1`, copies `min(sampleCount * STEREO, BUFFER_SAMPLES * STEREO)`
floats into the destination, stamps the last shared-memory read time, returns `TRUE`.
The IN region is a flat array `region : Nat → ℚ` of floats (buffer `k` starts at
offset `k * BUFFER_SAMPLES * STEREO`); the destination is a caller buffer whose
first `copyCount` floats are overwritten. -/
def AudioBus_ReadProcessedAudio (s : BusState) (region : Nat → ℚ) (dest : List ℚ)
    (sampleCount tick : Nat) : BusState × Bool × List ℚ :=
  if s.initialized then
    let readFromBuffer := (s.inWriteIndex + 1) &&& 1
    let base := readFromBuffer * (BUFFER_SAMPLES * STEREO)
    let copyCount := min (sampleCount * STEREO) (BUFFER_SAMPLES * STEREO)
    ({ s with lastSharedMemReadTime := tick }, true,
      (List.range copyCount).map (fun i => region (base + i)) ++ dest.drop copyCount)
  else (s, false, dest)

/-- `AudioBus_CheckPermafrostAlive`: outside takeover returns `TRUE`; in takeover,
if `OutFrameCounter > InFrameCounter + 3` releases the takeover and returns
`FALSE`. -/
def AudioBus_CheckPermafrostAlive (s : BusState) : Bool × BusState :=
  if s.initialized ∧ s.takeoverState = .active then
    if s.outFrameCounter > s.inFrameCounter + 3 then
      (false, AudioBus_ReleaseTakeover s true)
    else (true, s)
  else (true, s)

/-- One externally visible step of `AudioBus_ProcessAudioFrame`. -/
inductive FrameAction
  | boundary
  | heartbeat
  | livenessCheck
  | swapBuffer
  | signalReady
  | waitProcessed (ok : Bool)
deriving DecidableEq

/-- `AudioBus_ProcessAudioFrame`: frame boundary, heartbeat, takeover check,
liveness check, swap, `AudioReady` signal, bounded wait on `ProcessedReady`
(`hostResponds` is the wait outcome).  Returns the new state, the `BOOL` result,
and the trace of steps performed. -/
def AudioBus_ProcessAudioFrame (s : BusState) (hostResponds : Bool) (tick : Nat) :
    BusState × Bool × List FrameAction :=
  if s.initialized then
    let s1 := AudioBus_ProcessFrameBoundary s
    let s2 := AudioBus_IncrementHeartbeat s1
    if AudioBus_IsTakeoverActive s2 then
      let p := AudioBus_CheckPermafrostAlive s2
      if p.1 then
        let s4 := AudioBus_SwapOutBuffer p.2 tick
        if hostResponds then
          (s4, true, [.boundary, .heartbeat, .livenessCheck, .swapBuffer, .signalReady,
                      .waitProcessed true])
        else
          (AudioBus_ReleaseTakeover s4 true, false,
            [.boundary, .heartbeat, .livenessCheck, .swapBuffer, .signalReady,
             .waitProcessed false])
      else (p.2, false, [.boundary, .heartbeat, .livenessCheck])
    else (s2, false, [.boundary, .heartbeat])
  else (s, false, [])

/-- Run a sequence of `AudioBus_ProcessAudioFrame` calls, one per entry of
`resps` (the wait outcome of each frame); collects the results and the
concatenated trace. -/
def runFrames : BusState → List Bool → Nat → BusState × List Bool × List FrameAction
  | s, [], _ => (s, [], [])
  | s, r :: rs, tick =>
    let p := AudioBus_ProcessAudioFrame s r tick
    let q := runFrames p.1 rs tick
    (q.1, p.2.1 :: q.2.1, p.2.2 ++ q.2.2)

/-- `true` iff every `swapBuffer` / `signalReady` action in the trace is preceded
by a `livenessCheck` action (`seen` carries whether a check occurred already). -/
def checkPrecedes : List FrameAction → Bool → Bool
  | [], _ => true
  | a :: rest, seen =>
    match a with
    | .swapBuffer => seen && checkPrecedes rest seen
    | .signalReady => seen && checkPrecedes rest seen
    | .livenessCheck => checkPrecedes rest true
    | _ => checkPrecedes rest seen

/-- `true` for actions touching the sync events (`AudioReady` signal,
`ProcessedReady` wait). -/
def isSyncAction : FrameAction → Bool
  | .signalReady => true
  | .waitProcessed _ => true
  | _ => false

/-- The host's per-frame header action (the consumer thread in Permafrost): after
writing the IN buffer it advances `InWriteIndex` and `InFrameCounter`. -/
def hostAdvanceInBuffer (s : BusState) : BusState :=
  { s with inWriteIndex := (s.inWriteIndex + 1) &&& 1,
           inFrameCounter := (s.inFrameCounter + 1) % U64 }

/-- One call against the bus, with all of its environment inputs (arguments, lock
outcomes, clock reads, event-wait outcomes) made explicit.  Covers every
state-mutating `AudioBus_*` entry point of the source plus the host's header
action. -/
inductive BusOp
  | destroy
  | updateLevels (l r : ℚ) (v : Nat) (c : ℚ) (lockOk : Bool) (tick : Nat)
  | updateChannelVoices (ch v : Nat) (lockOk : Bool)
  | updateChannelLevels (ch : Nat) (l r : ℚ) (lockOk : Bool)
  | updateAllChannelVoices (vs : Fin 16 → Nat) (lockOk : Bool)
  | acknowledgePanic
  | requestPanic
  | clearPanicAck (lockOk : Bool)
  | setSampleRate (sr : Nat)
  | recordMidiEvent (tick : Nat)
  | recordSynthComplete (tick : Nat)
  | recordAudioOutput (tick : Nat)
  | updateLatencyInfo (outUs asioUs engine : Nat) (lockOk : Bool)
  | requestTakeover (lockOk : Bool)
  | releaseTakeover (lockOk : Bool)
  | processFrameBoundary
  | swapOutBuffer (tick : Nat)
  | incrementHeartbeat
  | checkPermafrostAlive
  | readProcessedAudio (region : Nat → ℚ) (dest : List ℚ) (n tick : Nat)
  | processAudioFrame (hostResponds : Bool) (tick : Nat)
  | hostAdvanceIn

/-- The state effect of one `BusOp`. -/
def applyOp (op : BusOp) (s : BusState) : BusState :=
  match op with
  | .destroy => AudioBus_Destroy s
  | .updateLevels l r v c lk t => AudioBus_UpdateLevels s l r v c lk t
  | .updateChannelVoices ch v lk => AudioBus_UpdateChannelVoices s ch v lk
  | .updateChannelLevels ch l r lk => AudioBus_UpdateChannelLevels s ch l r lk
  | .updateAllChannelVoices vs lk => AudioBus_UpdateAllChannelVoices s vs lk
  | .acknowledgePanic => AudioBus_AcknowledgePanic s
  | .requestPanic => AudioBus_RequestPanic s
  | .clearPanicAck lk => AudioBus_ClearPanicAck s lk
  | .setSampleRate sr => AudioBus_SetSampleRate s sr
  | .recordMidiEvent t => AudioBus_RecordMidiEvent s t
  | .recordSynthComplete t => AudioBus_RecordSynthComplete s t
  | .recordAudioOutput t => AudioBus_RecordAudioOutput s t
  | .updateLatencyInfo o a e lk => AudioBus_UpdateLatencyInfo s o a e lk
  | .requestTakeover lk => AudioBus_RequestTakeover s lk
  | .releaseTakeover lk => AudioBus_ReleaseTakeover s lk
  | .processFrameBoundary => AudioBus_ProcessFrameBoundary s
  | .swapOutBuffer t => AudioBus_SwapOutBuffer s t
  | .incrementHeartbeat => AudioBus_IncrementHeartbeat s
  | .checkPermafrostAlive => (AudioBus_CheckPermafrostAlive s).2
  | .readProcessedAudio region dest n t => (AudioBus_ReadProcessedAudio s region dest n t).1
  | .processAudioFrame r t => (AudioBus_ProcessAudioFrame s r t).1
  | .hostAdvanceIn => hostAdvanceInBuffer s

/-- Apply a sequence of bus operations. -/
def applyOps (s : BusState) (ops : List BusOp) : BusState :=
  ops.foldl (fun s op => applyOp op s) s

/-- The flag-tracking invariant: the `AudioEnabled` flag is set whenever the
takeover state is `Pending` or `Active` (spec §4.6: the flag tracks
`{Pending, Active}`). -/
def audioEnabledInv (s : BusState) : Prop :=
  s.takeoverState = .pending ∨ s.takeoverState = .active →
    testFlag s.flags FLAG_AUDIO_ENABLED = true

/-- An initialized state sitting in `Pending` (as left by `AudioBus_RequestTakeover`
from a fresh bus). -/
def pendingState : BusState :=
  AudioBus_RequestTakeover (AudioBus_Create 1 48000 0) true

/-- Scenario state for the liveness claims: takeover active just after creation,
with the counters at zero. -/
def driftState : BusState :=
  { AudioBus_Create 1 48000 0 with
      takeoverState := .active,
      flags := setFlag FLAG_ACTIVE FLAG_AUDIO_ENABLED }

/-- Meter-decay scenario: the state after the first `AudioBus_UpdateLevels` call
fed with peak 1.0. -/
def ms1 : BusState := AudioBus_UpdateLevels (AudioBus_Create 1 48000 0) 1 1 0 0 true 0

/-- Iterate `AudioBus_UpdateLevels` with silent input `n` times. -/
def decayRun : Nat → BusState → BusState
  | 0, s => s
  | n + 1, s => decayRun n (AudioBus_UpdateLevels s 0 0 0 0 true 0)

lemma testFlag_two_pow (f i : Nat) : testFlag f (2 ^ i) = f.testBit i := by
  rw [testFlag, Nat.and_two_pow]
  cases h : f.testBit i
  · simp
  · simp [Nat.pos_iff_ne_zero.mp (Nat.two_pow_pos i)]

lemma testFlag_req (f : Nat) : testFlag f FLAG_PANIC_REQUEST = f.testBit 1 :=
  testFlag_two_pow f 1

lemma testFlag_ack (f : Nat) : testFlag f FLAG_PANIC_ACK = f.testBit 2 :=
  testFlag_two_pow f 2

lemma testFlag_enabled (f : Nat) : testFlag f FLAG_AUDIO_ENABLED = f.testBit 3 :=
  testFlag_two_pow f 3

lemma testBit_setFlag (f m i : Nat) :
    (setFlag f m).testBit i = (f.testBit i || m.testBit i) := by
  simp [setFlag, Nat.testBit_lor]

lemma testBit_clearFlag (f m i : Nat) :
    (clearFlag f m).testBit i = (f.testBit i && (4294967295 ^^^ m).testBit i) := by
  simp [clearFlag, Nat.testBit_land]

lemma maskBit_req_1 : (4294967295 ^^^ FLAG_PANIC_REQUEST : Nat).testBit 1 = false := by decide

lemma maskBit_req_2 : (4294967295 ^^^ FLAG_PANIC_REQUEST : Nat).testBit 2 = true := by decide

lemma maskBit_req_3 : (4294967295 ^^^ FLAG_PANIC_REQUEST : Nat).testBit 3 = true := by decide

lemma maskBit_ack_1 : (4294967295 ^^^ FLAG_PANIC_ACK : Nat).testBit 1 = true := by decide

lemma maskBit_ack_2 : (4294967295 ^^^ FLAG_PANIC_ACK : Nat).testBit 2 = false := by decide

lemma maskBit_ack_3 : (4294967295 ^^^ FLAG_PANIC_ACK : Nat).testBit 3 = true := by decide

lemma maskBit_enabled_3 : (4294967295 ^^^ FLAG_AUDIO_ENABLED : Nat).testBit 3 = false := by decide

lemma flagBit_req_1 : (FLAG_PANIC_REQUEST : Nat).testBit 1 = true := by decide

lemma flagBit_req_2 : (FLAG_PANIC_REQUEST : Nat).testBit 2 = false := by decide

lemma flagBit_req_3 : (FLAG_PANIC_REQUEST : Nat).testBit 3 = false := by decide

lemma flagBit_ack_1 : (FLAG_PANIC_ACK : Nat).testBit 1 = false := by decide

lemma flagBit_ack_2 : (FLAG_PANIC_ACK : Nat).testBit 2 = true := by decide

lemma flagBit_ack_3 : (FLAG_PANIC_ACK : Nat).testBit 3 = false := by decide

lemma flagBit_enabled_3 : (FLAG_AUDIO_ENABLED : Nat).testBit 3 = true := by decide

lemma testFlag_clear_enabled (f : Nat) :
    testFlag (clearFlag f FLAG_AUDIO_ENABLED) FLAG_AUDIO_ENABLED = false := by
  rw [testFlag_enabled, testBit_clearFlag, maskBit_enabled_3]
  simp

lemma testBit3_set_enabled (f : Nat) :
    (setFlag f FLAG_AUDIO_ENABLED).testBit 3 = true := by
  rw [testBit_setFlag, flagBit_enabled_3]
  simp

lemma testBit3_acknowledgePanic (f : Nat) :
    (setFlag (clearFlag f FLAG_PANIC_REQUEST) FLAG_PANIC_ACK).testBit 3 = f.testBit 3 := by
  rw [testBit_setFlag, testBit_clearFlag, maskBit_req_3, flagBit_ack_3]
  simp

lemma testBit3_requestPanic (f : Nat) :
    (clearFlag (setFlag f FLAG_PANIC_REQUEST) FLAG_PANIC_ACK).testBit 3 = f.testBit 3 := by
  rw [testBit_clearFlag, testBit_setFlag, maskBit_ack_3, flagBit_req_3]
  simp

lemma testBit3_clearAck (f : Nat) :
    (clearFlag f FLAG_PANIC_ACK).testBit 3 = f.testBit 3 := by
  rw [testBit_clearFlag, maskBit_ack_3]
  simp

lemma frame_direct (s : BusState) (r : Bool) (tick : Nat) (h1 : s.initialized = true)
    (h2 : s.takeoverState = .direct) :
    AudioBus_ProcessAudioFrame s r tick =
      ({ s with heartbeatCounter := (s.heartbeatCounter + 1) % U64 }, false,
        [.boundary, .heartbeat]) := by
  unfold AudioBus_ProcessAudioFrame AudioBus_ProcessFrameBoundary AudioBus_IncrementHeartbeat
    AudioBus_IsTakeoverActive
  simp [h1, h2]

lemma frame_releasing (s : BusState) (r : Bool) (tick : Nat) (h1 : s.initialized = true)
    (h2 : s.takeoverState = .releasing) :
    AudioBus_ProcessAudioFrame s r tick =
      ({ s with takeoverState := .direct,
                flags := clearFlag s.flags FLAG_AUDIO_ENABLED,
                heartbeatCounter := (s.heartbeatCounter + 1) % U64 }, false,
        [.boundary, .heartbeat]) := by
  unfold AudioBus_ProcessAudioFrame AudioBus_ProcessFrameBoundary AudioBus_IncrementHeartbeat
    AudioBus_IsTakeoverActive
  simp [h1, h2]

lemma frame_active_timeout (s : BusState) (tick : Nat) (h1 : s.initialized = true)
    (h2 : s.takeoverState = .active) (h3 : ¬ s.outFrameCounter > s.inFrameCounter + 3) :
    AudioBus_ProcessAudioFrame s false tick =
      ({ s with heartbeatCounter := (s.heartbeatCounter + 1) % U64,
                outWriteIndex := (s.outWriteIndex + 1) &&& 1,
                outFrameCounter := (s.outFrameCounter + 1) % U64,
                lastSharedMemWriteTime := tick,
                takeoverState := .releasing }, false,
        [.boundary, .heartbeat, .livenessCheck, .swapBuffer, .signalReady,
         .waitProcessed false]) := by
  unfold AudioBus_ProcessAudioFrame AudioBus_ProcessFrameBoundary AudioBus_IncrementHeartbeat
    AudioBus_IsTakeoverActive AudioBus_CheckPermafrostAlive AudioBus_SwapOutBuffer
    AudioBus_ReleaseTakeover
  simp [h1, h2, h3]

lemma frame_releasing_projections (s : BusState) (r : Bool) (tick : Nat)
    (h1 : s.initialized = true) (h2 : s.takeoverState = .releasing) :
    (AudioBus_ProcessAudioFrame s r tick).2.1 = false ∧
    (AudioBus_ProcessAudioFrame s r tick).1.takeoverState = .direct ∧
    testFlag (AudioBus_ProcessAudioFrame s r tick).1.flags FLAG_AUDIO_ENABLED = false := by
  rw [frame_releasing s r tick h1 h2]
  exact ⟨rfl, rfl, testFlag_clear_enabled _⟩

/-- C4: starting from an initialized bus with both panic flags clear (idle), the
sequence `AudioBus_RequestPanic`; `AudioBus_CheckPanicRequest` (which returns
`TRUE`); `AudioBus_AcknowledgePanic` leaves `PanicRequest = 0` and `PanicAck = 1`,
and a subsequent `AudioBus_ClearPanicAck` leaves `PanicRequest = 0` and
`PanicAck = 0`. -/
theorem panic_round_trip (s : BusState) (h1 : s.initialized = true)
    (_hreq : testFlag s.flags FLAG_PANIC_REQUEST = false)
    (_hack : testFlag s.flags FLAG_PANIC_ACK = false) :
    AudioBus_CheckPanicRequest (AudioBus_RequestPanic s) true = true ∧
    testFlag (AudioBus_AcknowledgePanic (AudioBus_RequestPanic s)).flags
      FLAG_PANIC_REQUEST = false ∧
    testFlag (AudioBus_AcknowledgePanic (AudioBus_RequestPanic s)).flags
      FLAG_PANIC_ACK = true ∧
    testFlag (AudioBus_ClearPanicAck
        (AudioBus_AcknowledgePanic (AudioBus_RequestPanic s)) true).flags
      FLAG_PANIC_REQUEST = false ∧
    testFlag (AudioBus_ClearPanicAck
        (AudioBus_AcknowledgePanic (AudioBus_RequestPanic s)) true).flags
      FLAG_PANIC_ACK = false := by
  simp [AudioBus_RequestPanic, AudioBus_CheckPanicRequest, AudioBus_AcknowledgePanic,
    AudioBus_ClearPanicAck, h1, testFlag_req, testFlag_ack, testBit_setFlag,
    testBit_clearFlag, maskBit_req_1, maskBit_req_2, maskBit_ack_1, maskBit_ack_2,
    flagBit_req_1, flagBit_req_2, flagBit_ack_1, flagBit_ack_2]
  all_goals decide

/-- Witness for C4 at the freshly created bus (flags = `Active` only). -/
theorem panic_round_trip_witness :
    AudioBus_CheckPanicRequest (AudioBus_RequestPanic (AudioBus_Create 1 48000 0)) true = true ∧
    testFlag (AudioBus_AcknowledgePanic (AudioBus_RequestPanic (AudioBus_Create 1 48000 0))).flags
      FLAG_PANIC_REQUEST = false ∧
    testFlag (AudioBus_AcknowledgePanic (AudioBus_RequestPanic (AudioBus_Create 1 48000 0))).flags
      FLAG_PANIC_ACK = true ∧
    testFlag (AudioBus_ClearPanicAck
        (AudioBus_AcknowledgePanic (AudioBus_RequestPanic (AudioBus_Create 1 48000 0))) true).flags
      FLAG_PANIC_REQUEST = false ∧
    testFlag (AudioBus_ClearPanicAck
        (AudioBus_AcknowledgePanic (AudioBus_RequestPanic (AudioBus_Create 1 48000 0))) true).flags
      FLAG_PANIC_ACK = false :=
  panic_round_trip (AudioBus_Create 1 48000 0) rfl (by decide) (by decide)

/-- C5: for every initialized bus, `AudioBus_RequestTakeover` in state `Pending` or
`Active` leaves the entire header unchanged, and `AudioBus_ReleaseTakeover` in
state `Direct` leaves the entire header unchanged. -/
theorem takeover_idempotence (s t : BusState) (lk1 lk2 : Bool)
    (hs1 : s.initialized = true)
    (hs2 : s.takeoverState = .pending ∨ s.takeoverState = .active)
    (ht1 : t.initialized = true) (ht2 : t.takeoverState = .direct) :
    AudioBus_RequestTakeover s lk1 = s ∧ AudioBus_ReleaseTakeover t lk2 = t := by
  constructor
  · unfold AudioBus_RequestTakeover
    rcases hs2 with h | h <;> simp [hs1, h]
  · unfold AudioBus_ReleaseTakeover
    simp [ht1, ht2]

/-- Witness for C5: `pendingState` (in `Pending`) and a fresh bus (in `Direct`). -/
theorem takeover_idempotence_witness :
    AudioBus_RequestTakeover pendingState true = pendingState ∧
    AudioBus_ReleaseTakeover (AudioBus_Create 1 48000 0) true = AudioBus_Create 1 48000 0 :=
  takeover_idempotence pendingState (AudioBus_Create 1 48000 0) true true
    (by decide) (Or.inl (by decide)) rfl rfl

/-- C9 (amended): `AudioBus_TicksToMicroseconds` computes
`(ticks * 1000000 mod 2^64) / frequency`; it returns zero when the frequency is
zero, and it equals the exact `ticks * 1000000 / frequency` only when the 64-bit
product does not wrap.  (The source has no wrap-or-negative check.) -/
theorem ticks_to_microseconds_law (freq ticks : Nat) (h1 : freq ≠ 0)
    (h2 : ticks * 1000000 < U64) :
    AudioBus_TicksToMicroseconds freq ticks = ticks * 1000000 / freq ∧
    AudioBus_TicksToMicroseconds 0 ticks = 0 := by
  unfold AudioBus_TicksToMicroseconds
  simp [h1, Nat.mod_eq_of_lt h2]

/-- Witness for C9 at a typical QPC frequency. -/
theorem ticks_to_microseconds_law_witness :
    AudioBus_TicksToMicroseconds 10000000 123456789 = 123456789 * 1000000 / 10000000 ∧
    AudioBus_TicksToMicroseconds 0 123456789 = 0 :=
  ticks_to_microseconds_law 10000000 123456789 (by decide) (by decide)

/-- Counterexample for C9 as stated: at `freq = 1`, `ticks = 18446744073710` the
64-bit product wraps; the function returns the wrapped quotient 448384, which is
neither the exact `ticks * 1000000 / freq` nor zero. -/
theorem ticks_to_microseconds_cex :
    AudioBus_TicksToMicroseconds 1 18446744073710 = 448384 ∧
    AudioBus_TicksToMicroseconds 1 18446744073710 ≠ 18446744073710 * 1000000 / 1 ∧
    AudioBus_TicksToMicroseconds 1 18446744073710 ≠ 0 := by
  refine ⟨by decide, by decide, by decide⟩

/-- C1: with the bus initialized, `TakeoverState = Active` and
`OutFrameCounter ≤ InFrameCounter + 3`, an `AudioBus_ProcessAudioFrame` call whose
`ProcessedReady` wait times out returns `FALSE` and leaves `TakeoverState =
Releasing`; the immediately following call transitions `Releasing → Direct`,
clears the `AudioEnabled` flag, and returns `FALSE`. -/
theorem frame_timeout_release_sequence (s : BusState) (tick1 tick2 : Nat) (resp2 : Bool)
    (h1 : s.initialized = true) (h2 : s.takeoverState = .active)
    (h3 : s.outFrameCounter ≤ s.inFrameCounter + 3) :
    (AudioBus_ProcessAudioFrame s false tick1).2.1 = false ∧
    (AudioBus_ProcessAudioFrame s false tick1).1.takeoverState = .releasing ∧
    (AudioBus_ProcessAudioFrame
        (AudioBus_ProcessAudioFrame s false tick1).1 resp2 tick2).2.1 = false ∧
    (AudioBus_ProcessAudioFrame
        (AudioBus_ProcessAudioFrame s false tick1).1 resp2 tick2).1.takeoverState = .direct ∧
    testFlag (AudioBus_ProcessAudioFrame
        (AudioBus_ProcessAudioFrame s false tick1).1 resp2 tick2).1.flags
      FLAG_AUDIO_ENABLED = false := by
  rw [frame_active_timeout s tick1 h1 h2 (not_lt.mpr h3)]
  exact ⟨rfl, rfl, frame_releasing_projections _ resp2 tick2 h1 rfl⟩

/-- Witness for C1 at the concrete drift-scenario state. -/
theorem frame_timeout_release_sequence_witness :
    (AudioBus_ProcessAudioFrame driftState false 3).2.1 = false ∧
    (AudioBus_ProcessAudioFrame driftState false 3).1.takeoverState = .releasing ∧
    (AudioBus_ProcessAudioFrame
        (AudioBus_ProcessAudioFrame driftState false 3).1 true 4).2.1 = false ∧
    (AudioBus_ProcessAudioFrame
        (AudioBus_ProcessAudioFrame driftState false 3).1 true 4).1.takeoverState = .direct ∧
    testFlag (AudioBus_ProcessAudioFrame
        (AudioBus_ProcessAudioFrame driftState false 3).1 true 4).1.flags
      FLAG_AUDIO_ENABLED = false :=
  frame_timeout_release_sequence driftState 3 4 true rfl rfl (by decide)

/-- C10: a frame that reaches the swap step and then times out on `ProcessedReady`
has, before returning `FALSE`, already toggled `OutWriteIndex` and performed the
64-bit increment of `OutFrameCounter`; the trace shows the swap preceding the
failed wait, and nothing is rolled back on the error path. -/
theorem timeout_frame_accounting (s : BusState) (tick : Nat)
    (h1 : s.initialized = true) (h2 : s.takeoverState = .active)
    (h3 : s.outFrameCounter ≤ s.inFrameCounter + 3) :
    (AudioBus_ProcessAudioFrame s false tick).2.1 = false ∧
    (AudioBus_ProcessAudioFrame s false tick).1.outWriteIndex
      = (s.outWriteIndex + 1) &&& 1 ∧
    (AudioBus_ProcessAudioFrame s false tick).1.outFrameCounter
      = (s.outFrameCounter + 1) % U64 ∧
    (AudioBus_ProcessAudioFrame s false tick).2.2 =
      [.boundary, .heartbeat, .livenessCheck, .swapBuffer, .signalReady,
       .waitProcessed false] := by
  rw [frame_active_timeout s tick h1 h2 (not_lt.mpr h3)]
  exact ⟨rfl, rfl, rfl, rfl⟩

/-- Witness for C10 at the concrete drift-scenario state. -/
theorem timeout_frame_accounting_witness :
    (AudioBus_ProcessAudioFrame driftState false 7).2.1 = false ∧
    (AudioBus_ProcessAudioFrame driftState false 7).1.outWriteIndex
      = (driftState.outWriteIndex + 1) &&& 1 ∧
    (AudioBus_ProcessAudioFrame driftState false 7).1.outFrameCounter
      = (driftState.outFrameCounter + 1) % U64 ∧
    (AudioBus_ProcessAudioFrame driftState false 7).2.2 =
      [.boundary, .heartbeat, .livenessCheck, .swapBuffer, .signalReady,
       .waitProcessed false] :=
  timeout_frame_accounting driftState 7 rfl rfl (by decide)

lemma frame_active_respond (s : BusState) (tick : Nat) (h1 : s.initialized = true)
    (h2 : s.takeoverState = .active) (h3 : ¬ s.outFrameCounter > s.inFrameCounter + 3) :
    AudioBus_ProcessAudioFrame s true tick =
      ({ s with heartbeatCounter := (s.heartbeatCounter + 1) % U64,
                outWriteIndex := (s.outWriteIndex + 1) &&& 1,
                outFrameCounter := (s.outFrameCounter + 1) % U64,
                lastSharedMemWriteTime := tick }, true,
        [.boundary, .heartbeat, .livenessCheck, .swapBuffer, .signalReady,
         .waitProcessed true]) := by
  unfold AudioBus_ProcessAudioFrame AudioBus_ProcessFrameBoundary AudioBus_IncrementHeartbeat
    AudioBus_IsTakeoverActive AudioBus_CheckPermafrostAlive AudioBus_SwapOutBuffer
  simp [h1, h2, h3]

lemma frame_active_drift (s : BusState) (r : Bool) (tick : Nat) (h1 : s.initialized = true)
    (h2 : s.takeoverState = .active) (h3 : s.outFrameCounter > s.inFrameCounter + 3) :
    AudioBus_ProcessAudioFrame s r tick =
      ({ s with heartbeatCounter := (s.heartbeatCounter + 1) % U64,
                takeoverState := .releasing }, false,
        [.boundary, .heartbeat, .livenessCheck]) := by
  unfold AudioBus_ProcessAudioFrame AudioBus_ProcessFrameBoundary AudioBus_IncrementHeartbeat
    AudioBus_IsTakeoverActive AudioBus_CheckPermafrostAlive AudioBus_ReleaseTakeover
  simp [h1, h2, h3]

/-- C7: after a successful `AudioBus_Create` (state `Direct`, flags = `Active`),
10 consecutive `AudioBus_ProcessAudioFrame` calls each return `FALSE`, after which
`HeartbeatCounter = 10` and `OutFrameCounter = 0`, and no `ProcessedReady` wait
and no `AudioReady` signal was issued in any of those calls. -/
theorem cold_start_no_host (freq sr tick tick2 : Nat) :
    (AudioBus_Create freq sr tick).takeoverState = .direct ∧
    (AudioBus_Create freq sr tick).flags = FLAG_ACTIVE ∧
    (runFrames (AudioBus_Create freq sr tick) (List.replicate 10 false) tick2).2.1
      = List.replicate 10 false ∧
    (runFrames (AudioBus_Create freq sr tick)
      (List.replicate 10 false) tick2).1.heartbeatCounter = 10 ∧
    (runFrames (AudioBus_Create freq sr tick)
      (List.replicate 10 false) tick2).1.outFrameCounter = 0 ∧
    (runFrames (AudioBus_Create freq sr tick)
      (List.replicate 10 false) tick2).2.2.filter isSyncAction = [] := by
  refine ⟨rfl, rfl, ?_, ?_, ?_, ?_⟩ <;>
    simp [runFrames, frame_direct, AudioBus_Create, U64, isSyncAction, List.replicate]

/-- C8: for every initialized bus (with a valid `InWriteIndex`),
`AudioBus_ReadProcessedAudio` with requested stereo sample count `n` reads from
the IN buffer at index `InWriteIndex ^^^ 1`, copies exactly
`min(n * 2, BUFFER_SAMPLES * 2)` floats from that buffer into the destination,
stamps the last shared-memory read time, and returns `TRUE`. -/
theorem read_processed_audio_law (s : BusState) (region : Nat → ℚ) (dest : List ℚ)
    (n tick : Nat) (h1 : s.initialized = true) (h2 : s.inWriteIndex ≤ 1) :
    (AudioBus_ReadProcessedAudio s region dest n tick).2.1 = true ∧
    (AudioBus_ReadProcessedAudio s region dest n tick).1.lastSharedMemReadTime = tick ∧
    (AudioBus_ReadProcessedAudio s region dest n tick).2.2 =
      (List.range (min (n * 2) 4096)).map
        (fun i => region ((s.inWriteIndex ^^^ 1) * 4096 + i))
        ++ dest.drop (min (n * 2) 4096) := by
  have h2' : s.inWriteIndex = 0 ∨ s.inWriteIndex = 1 := by omega
  unfold AudioBus_ReadProcessedAudio
  rcases h2' with h | h <;> simp [h1, h, BUFFER_SAMPLES, STEREO]

/-- Witness for C8 at a fresh bus with a concrete region and destination. -/
theorem read_processed_audio_law_witness :
    (AudioBus_ReadProcessedAudio (AudioBus_Create 1 48000 0)
      (fun _ => (2 : ℚ)) [5, 6, 7] 1 99).2.1 = true ∧
    (AudioBus_ReadProcessedAudio (AudioBus_Create 1 48000 0)
      (fun _ => (2 : ℚ)) [5, 6, 7] 1 99).1.lastSharedMemReadTime = 99 ∧
    (AudioBus_ReadProcessedAudio (AudioBus_Create 1 48000 0)
      (fun _ => (2 : ℚ)) [5, 6, 7] 1 99).2.2 =
      (List.range (min (1 * 2) 4096)).map
        (fun i => (fun _ => (2 : ℚ)) (((AudioBus_Create 1 48000 0).inWriteIndex ^^^ 1) * 4096 + i))
        ++ [5, 6, 7].drop (min (1 * 2) 4096) :=
  read_processed_audio_law (AudioBus_Create 1 48000 0) (fun _ => (2 : ℚ)) [5, 6, 7] 1 99
    rfl (by decide)

/-- C3 (amended): each peak-meter update (master L, master R, each channel L, R)
computes `new = input` when `input > old` and `new = old * 0.92` otherwise — fast
attack, 0.92-per-update release (not `max(input, old * 0.92)`, which differs when
`old * 0.92 < input ≤ old`); an update with peak 1.0 followed by 9 silent updates
leaves the smoothed master peak at `0.92 ^ 9`. -/
theorem peak_smoothing_law (s : BusState) (l r pl pr : ℚ) (v : Nat) (c : ℚ)
    (lockOk : Bool) (tick ch : Nat) (hch : ch < 16) (h1 : s.initialized = true) :
    (AudioBus_UpdateLevels s l r v c lockOk tick).gMasterPeakL
      = (if l > s.gMasterPeakL then l else s.gMasterPeakL * LEVEL_DECAY) ∧
    (AudioBus_UpdateLevels s l r v c lockOk tick).gMasterPeakR
      = (if r > s.gMasterPeakR then r else s.gMasterPeakR * LEVEL_DECAY) ∧
    (AudioBus_UpdateChannelLevels s ch pl pr lockOk).gChannelPeaksL ⟨ch, hch⟩
      = (if pl > s.gChannelPeaksL ⟨ch, hch⟩ then pl
         else s.gChannelPeaksL ⟨ch, hch⟩ * LEVEL_DECAY) ∧
    (AudioBus_UpdateChannelLevels s ch pl pr lockOk).gChannelPeaksR ⟨ch, hch⟩
      = (if pr > s.gChannelPeaksR ⟨ch, hch⟩ then pr
         else s.gChannelPeaksR ⟨ch, hch⟩ * LEVEL_DECAY) ∧
    (decayRun 9 ms1).gMasterPeakL = LEVEL_DECAY ^ 9 := by
  refine ⟨?_, ?_, ?_, ?_, ?_⟩
  · unfold AudioBus_UpdateLevels
    simp only [h1, if_true]
    split_ifs <;> rfl
  · unfold AudioBus_UpdateLevels
    simp only [h1, if_true]
    split_ifs <;> rfl
  · unfold AudioBus_UpdateChannelLevels
    simp [h1, NUM_CHANNELS, hch]
    split_ifs <;> simp
  · unfold AudioBus_UpdateChannelLevels
    simp [h1, NUM_CHANNELS, hch]
    split_ifs <;> simp
  · norm_num [decayRun, ms1, AudioBus_UpdateLevels, AudioBus_Create, LEVEL_DECAY]

/-- Witness for C3 at a fresh bus, channel 2, concrete rational inputs. -/
theorem peak_smoothing_law_witness :
    (AudioBus_UpdateLevels (AudioBus_Create 1 48000 0) (1/2) (1/3) 0 0 true 0).gMasterPeakL
      = (if (1/2 : ℚ) > (AudioBus_Create 1 48000 0).gMasterPeakL then (1/2 : ℚ)
         else (AudioBus_Create 1 48000 0).gMasterPeakL * LEVEL_DECAY) ∧
    (AudioBus_UpdateLevels (AudioBus_Create 1 48000 0) (1/2) (1/3) 0 0 true 0).gMasterPeakR
      = (if (1/3 : ℚ) > (AudioBus_Create 1 48000 0).gMasterPeakR then (1/3 : ℚ)
         else (AudioBus_Create 1 48000 0).gMasterPeakR * LEVEL_DECAY) ∧
    (AudioBus_UpdateChannelLevels (AudioBus_Create 1 48000 0) 2 (1/4) (1/5) true).gChannelPeaksL
        ⟨2, by decide⟩
      = (if (1/4 : ℚ) > (AudioBus_Create 1 48000 0).gChannelPeaksL ⟨2, by decide⟩ then (1/4 : ℚ)
         else (AudioBus_Create 1 48000 0).gChannelPeaksL ⟨2, by decide⟩ * LEVEL_DECAY) ∧
    (AudioBus_UpdateChannelLevels (AudioBus_Create 1 48000 0) 2 (1/4) (1/5) true).gChannelPeaksR
        ⟨2, by decide⟩
      = (if (1/5 : ℚ) > (AudioBus_Create 1 48000 0).gChannelPeaksR ⟨2, by decide⟩ then (1/5 : ℚ)
         else (AudioBus_Create 1 48000 0).gChannelPeaksR ⟨2, by decide⟩ * LEVEL_DECAY) ∧
    (decayRun 9 ms1).gMasterPeakL = LEVEL_DECAY ^ 9 :=
  peak_smoothing_law (AudioBus_Create 1 48000 0) (1/2) (1/3) (1/4) (1/5) 0 0 true 0 2
    (by decide) rfl

/-- Counterexample for C3 as stated: at previous value `old = 1.0` and input
`0.95`, the code yields `old * 0.92 = 0.92`, while `max(input, old * 0.92)`
would be `0.95`. -/
theorem peak_smoothing_max_cex :
    (AudioBus_UpdateLevels ms1 (19/20) (19/20) 0 0 true 0).gMasterPeakL
      ≠ max (19/20 : ℚ) (ms1.gMasterPeakL * LEVEL_DECAY) := by
  norm_num [ms1, AudioBus_UpdateLevels, AudioBus_Create, LEVEL_DECAY]

/-- C2 (amended): in every frame processed in state `Active` the liveness drift
check runs, and runs before the `OutWriteIndex` swap and before `AudioReady` is
signalled; starting from `Active` with `OutFrameCounter = InFrameCounter = 0`,
the host responding but `InFrameCounter` frozen, the first 4
`AudioBus_ProcessAudioFrame` calls succeed (leaving `OutFrameCounter = 4 >
InFrameCounter + 3`), and the 5th call's drift check fires, releases the takeover
to `Releasing`, and returns `FALSE`. -/
theorem drift_check_order_and_release (s : BusState) (resp : Bool) (tick : Nat)
    (h1 : s.initialized = true) (h2 : s.takeoverState = .active) :
    (FrameAction.livenessCheck ∈ (AudioBus_ProcessAudioFrame s resp tick).2.2 ∧
     checkPrecedes (AudioBus_ProcessAudioFrame s resp tick).2.2 false = true) ∧
    ((runFrames driftState (List.replicate 4 true) 0).2.1 = List.replicate 4 true ∧
     (runFrames driftState (List.replicate 4 true) 0).1.outFrameCounter = 4 ∧
     (runFrames driftState (List.replicate 4 true) 0).1.inFrameCounter = 0 ∧
     (AudioBus_ProcessAudioFrame
        (runFrames driftState (List.replicate 4 true) 0).1 true 0).2.1 = false ∧
     (AudioBus_ProcessAudioFrame
        (runFrames driftState (List.replicate 4 true) 0).1 true 0).1.takeoverState
       = .releasing) := by
  constructor
  · by_cases h3 : s.outFrameCounter > s.inFrameCounter + 3
    · rw [frame_active_drift s resp tick h1 h2 h3]
      exact ⟨by simp, rfl⟩
    · cases resp
      · rw [frame_active_timeout s tick h1 h2 h3]
        exact ⟨by simp, rfl⟩
      · rw [frame_active_respond s tick h1 h2 h3]
        exact ⟨by simp, rfl⟩
  · exact ⟨by decide, by decide, by decide, by decide, by decide⟩

/-- Witness for C2 at the concrete drift-scenario state. -/
theorem drift_check_order_and_release_witness :
    (FrameAction.livenessCheck ∈ (AudioBus_ProcessAudioFrame driftState true 0).2.2 ∧
     checkPrecedes (AudioBus_ProcessAudioFrame driftState true 0).2.2 false = true) ∧
    ((runFrames driftState (List.replicate 4 true) 0).2.1 = List.replicate 4 true ∧
     (runFrames driftState (List.replicate 4 true) 0).1.outFrameCounter = 4 ∧
     (runFrames driftState (List.replicate 4 true) 0).1.inFrameCounter = 0 ∧
     (AudioBus_ProcessAudioFrame
        (runFrames driftState (List.replicate 4 true) 0).1 true 0).2.1 = false ∧
     (AudioBus_ProcessAudioFrame
        (runFrames driftState (List.replicate 4 true) 0).1 true 0).1.takeoverState
       = .releasing) :=
  drift_check_order_and_release driftState true 0 rfl rfl

/-- Counterexample for C2 as stated: from `Active` with both counters zero and the
host responding with `InFrameCounter` frozen, the 4th `AudioBus_ProcessAudioFrame`
call still returns `TRUE` (the drift check saw `OutFrameCounter = 3 ≤ 3 =
InFrameCounter + 3`), and after 4 calls the state is still `Active`, not
`Releasing`. -/
theorem drift_check_fourth_frame_cex :
    (runFrames driftState (List.replicate 4 true) 0).2.1.getLast? = some true ∧
    ¬ (runFrames driftState (List.replicate 4 true) 0).1.takeoverState = .releasing :=
  ⟨by decide, by decide⟩

lemma audioEnabledInv_create (freq sr tick : Nat) :
    audioEnabledInv (AudioBus_Create freq sr tick) := by
  intro h'
  rcases h' with h' | h' <;> cases h'

lemma audioEnabledInv_destroy (s : BusState) (h : audioEnabledInv s) :
    audioEnabledInv (AudioBus_Destroy s) := by
  unfold AudioBus_Destroy
  split_ifs
  · intro h'
    rcases h' with h' | h' <;> cases h'
  · exact h

lemma audioEnabledInv_requestTakeover (s : BusState) (lk : Bool) (h : audioEnabledInv s) :
    audioEnabledInv (AudioBus_RequestTakeover s lk) := by
  unfold AudioBus_RequestTakeover
  split_ifs with hi hl hd
  · intro h'
    show testFlag (setFlag s.flags FLAG_AUDIO_ENABLED) FLAG_AUDIO_ENABLED = true
    rw [testFlag_enabled]
    exact testBit3_set_enabled s.flags
  · exact h
  · exact h
  · exact h

lemma audioEnabledInv_releaseTakeover (s : BusState) (lk : Bool) (h : audioEnabledInv s) :
    audioEnabledInv (AudioBus_ReleaseTakeover s lk) := by
  unfold AudioBus_ReleaseTakeover
  split_ifs with hi hl hd
  · intro h'
    rcases h' with h' | h' <;> cases h'
  · exact h
  · exact h
  · exact h

lemma audioEnabledInv_boundary (s : BusState) (h : audioEnabledInv s) :
    audioEnabledInv (AudioBus_ProcessFrameBoundary s) := by
  unfold AudioBus_ProcessFrameBoundary
  split
  · split
    · rename_i heq
      intro h'
      exact h (Or.inl heq)
    · intro h'
      rcases h' with h' | h' <;> cases h'
    · exact h
  · exact h

lemma audioEnabledInv_acknowledgePanic (s : BusState) (h : audioEnabledInv s) :
    audioEnabledInv (AudioBus_AcknowledgePanic s) := by
  unfold AudioBus_AcknowledgePanic
  split_ifs with hi
  · intro h'
    show testFlag (setFlag (clearFlag s.flags FLAG_PANIC_REQUEST) FLAG_PANIC_ACK)
      FLAG_AUDIO_ENABLED = true
    rw [testFlag_enabled, testBit3_acknowledgePanic]
    exact (testFlag_enabled s.flags) ▸ h h'
  · exact h

lemma audioEnabledInv_requestPanic (s : BusState) (h : audioEnabledInv s) :
    audioEnabledInv (AudioBus_RequestPanic s) := by
  unfold AudioBus_RequestPanic
  split_ifs with hi
  · intro h'
    show testFlag (clearFlag (setFlag s.flags FLAG_PANIC_REQUEST) FLAG_PANIC_ACK)
      FLAG_AUDIO_ENABLED = true
    rw [testFlag_enabled, testBit3_requestPanic]
    exact (testFlag_enabled s.flags) ▸ h h'
  · exact h

lemma audioEnabledInv_clearPanicAck (s : BusState) (lk : Bool) (h : audioEnabledInv s) :
    audioEnabledInv (AudioBus_ClearPanicAck s lk) := by
  unfold AudioBus_ClearPanicAck
  split_ifs with hi hl
  · intro h'
    show testFlag (clearFlag s.flags FLAG_PANIC_ACK) FLAG_AUDIO_ENABLED = true
    rw [testFlag_enabled, testBit3_clearAck]
    exact (testFlag_enabled s.flags) ▸ h h'
  · exact h
  · exact h

lemma audioEnabledInv_updateLevels (s : BusState) (l r : ℚ) (v : Nat) (c : ℚ)
    (lk : Bool) (t : Nat) (h : audioEnabledInv s) :
    audioEnabledInv (AudioBus_UpdateLevels s l r v c lk t) := by
  unfold AudioBus_UpdateLevels
  split_ifs <;> exact h

lemma audioEnabledInv_updateChannelVoices (s : BusState) (ch v : Nat) (lk : Bool)
    (h : audioEnabledInv s) : audioEnabledInv (AudioBus_UpdateChannelVoices s ch v lk) := by
  unfold AudioBus_UpdateChannelVoices
  split_ifs <;> exact h

lemma audioEnabledInv_updateChannelLevels (s : BusState) (ch : Nat) (l r : ℚ)
    (lk : Bool) (h : audioEnabledInv s) :
    audioEnabledInv (AudioBus_UpdateChannelLevels s ch l r lk) := by
  unfold AudioBus_UpdateChannelLevels
  split_ifs <;> exact h

lemma audioEnabledInv_updateAllChannelVoices (s : BusState) (vs : Fin 16 → Nat)
    (lk : Bool) (h : audioEnabledInv s) :
    audioEnabledInv (AudioBus_UpdateAllChannelVoices s vs lk) := by
  unfold AudioBus_UpdateAllChannelVoices
  split_ifs <;> exact h

lemma audioEnabledInv_setSampleRate (s : BusState) (sr : Nat) (h : audioEnabledInv s) :
    audioEnabledInv (AudioBus_SetSampleRate s sr) := by
  unfold AudioBus_SetSampleRate
  split_ifs <;> exact h

lemma audioEnabledInv_recordMidiEvent (s : BusState) (t : Nat) (h : audioEnabledInv s) :
    audioEnabledInv (AudioBus_RecordMidiEvent s t) := by
  unfold AudioBus_RecordMidiEvent
  split_ifs <;> exact h

lemma audioEnabledInv_recordSynthComplete (s : BusState) (t : Nat) (h : audioEnabledInv s) :
    audioEnabledInv (AudioBus_RecordSynthComplete s t) := by
  unfold AudioBus_RecordSynthComplete
  split_ifs <;> exact h

lemma audioEnabledInv_recordAudioOutput (s : BusState) (t : Nat) (h : audioEnabledInv s) :
    audioEnabledInv (AudioBus_RecordAudioOutput s t) := by
  unfold AudioBus_RecordAudioOutput
  split_ifs <;> exact h

lemma audioEnabledInv_updateLatencyInfo (s : BusState) (o a e : Nat) (lk : Bool)
    (h : audioEnabledInv s) : audioEnabledInv (AudioBus_UpdateLatencyInfo s o a e lk) := by
  unfold AudioBus_UpdateLatencyInfo
  split_ifs <;> exact h

lemma audioEnabledInv_swapOutBuffer (s : BusState) (t : Nat) (h : audioEnabledInv s) :
    audioEnabledInv (AudioBus_SwapOutBuffer s t) := by
  unfold AudioBus_SwapOutBuffer
  split_ifs <;> exact h

lemma audioEnabledInv_incrementHeartbeat (s : BusState) (h : audioEnabledInv s) :
    audioEnabledInv (AudioBus_IncrementHeartbeat s) := by
  unfold AudioBus_IncrementHeartbeat
  split_ifs <;> exact h

lemma audioEnabledInv_readProcessedAudio (s : BusState) (region : Nat → ℚ)
    (dest : List ℚ) (n t : Nat) (h : audioEnabledInv s) :
    audioEnabledInv (AudioBus_ReadProcessedAudio s region dest n t).1 := by
  unfold AudioBus_ReadProcessedAudio
  split_ifs <;> exact h

lemma audioEnabledInv_checkAlive (s : BusState) (h : audioEnabledInv s) :
    audioEnabledInv (AudioBus_CheckPermafrostAlive s).2 := by
  unfold AudioBus_CheckPermafrostAlive
  split_ifs
  · exact audioEnabledInv_releaseTakeover s true h
  · exact h
  · exact h

lemma audioEnabledInv_hostAdvanceIn (s : BusState) (h : audioEnabledInv s) :
    audioEnabledInv (hostAdvanceInBuffer s) := h

lemma audioEnabledInv_processAudioFrame (s : BusState) (r : Bool) (t : Nat)
    (h : audioEnabledInv s) : audioEnabledInv (AudioBus_ProcessAudioFrame s r t).1 := by
  have hb := audioEnabledInv_boundary s h
  have hh := audioEnabledInv_incrementHeartbeat _ hb
  have hc := audioEnabledInv_checkAlive _ hh
  simp only [AudioBus_ProcessAudioFrame]
  split_ifs <;>
    first
      | exact audioEnabledInv_releaseTakeover _ true (audioEnabledInv_swapOutBuffer _ t hc)
      | exact audioEnabledInv_swapOutBuffer _ t hc
      | exact hc
      | exact hh
      | exact h

lemma audioEnabledInv_applyOp (op : BusOp) (s : BusState) (h : audioEnabledInv s) :
    audioEnabledInv (applyOp op s) := by
  cases op with
  | destroy => exact audioEnabledInv_destroy s h
  | updateLevels l r v c lk t => exact audioEnabledInv_updateLevels s l r v c lk t h
  | updateChannelVoices ch v lk => exact audioEnabledInv_updateChannelVoices s ch v lk h
  | updateChannelLevels ch l r lk => exact audioEnabledInv_updateChannelLevels s ch l r lk h
  | updateAllChannelVoices vs lk => exact audioEnabledInv_updateAllChannelVoices s vs lk h
  | acknowledgePanic => exact audioEnabledInv_acknowledgePanic s h
  | requestPanic => exact audioEnabledInv_requestPanic s h
  | clearPanicAck lk => exact audioEnabledInv_clearPanicAck s lk h
  | setSampleRate sr => exact audioEnabledInv_setSampleRate s sr h
  | recordMidiEvent t => exact audioEnabledInv_recordMidiEvent s t h
  | recordSynthComplete t => exact audioEnabledInv_recordSynthComplete s t h
  | recordAudioOutput t => exact audioEnabledInv_recordAudioOutput s t h
  | updateLatencyInfo o a e lk => exact audioEnabledInv_updateLatencyInfo s o a e lk h
  | requestTakeover lk => exact audioEnabledInv_requestTakeover s lk h
  | releaseTakeover lk => exact audioEnabledInv_releaseTakeover s lk h
  | processFrameBoundary => exact audioEnabledInv_boundary s h
  | swapOutBuffer t => exact audioEnabledInv_swapOutBuffer s t h
  | incrementHeartbeat => exact audioEnabledInv_incrementHeartbeat s h
  | checkPermafrostAlive => exact audioEnabledInv_checkAlive s h
  | readProcessedAudio region dest n t => exact audioEnabledInv_readProcessedAudio s region dest n t h
  | processAudioFrame r t => exact audioEnabledInv_processAudioFrame s r t h
  | hostAdvanceIn => exact audioEnabledInv_hostAdvanceIn s h

lemma audioEnabledInv_applyOps (ops : List BusOp) (s : BusState) (h : audioEnabledInv s) :
    audioEnabledInv (applyOps s ops) := by
  induction ops generalizing s with
  | nil => exact h
  | cons op rest ih => exact ih (applyOp op s) (audioEnabledInv_applyOp op s h)

/-- C6: `TakeoverState = Active` implies the `AudioEnabled` flag is set, in every
state reachable from a successful `AudioBus_Create` by any sequence of bus
operations: the flag is set on entry to `Pending` in `AudioBus_RequestTakeover`,
cleared only on the exit to `Direct` in `AudioBus_ProcessFrameBoundary`, and no
operation reaches `Active` with the flag clear (the proof strengthens the
predicate to cover `Pending` as well, which every operation preserves). -/
theorem active_implies_audio_enabled (freq sr tick : Nat) (ops : List BusOp)
    (h : (applyOps (AudioBus_Create freq sr tick) ops).takeoverState = .active) :
    testFlag (applyOps (AudioBus_Create freq sr tick) ops).flags FLAG_AUDIO_ENABLED = true :=
  audioEnabledInv_applyOps ops (AudioBus_Create freq sr tick)
    (audioEnabledInv_create freq sr tick) (Or.inr h)

/-- Witness for C6: request takeover then cross a frame boundary, reaching
`Active` with the flag set. -/
theorem active_implies_audio_enabled_witness :
    testFlag (applyOps (AudioBus_Create 1 48000 0)
      [.requestTakeover true, .processFrameBoundary]).flags FLAG_AUDIO_ENABLED = true :=
  active_implies_audio_enabled 1 48000 0 [.requestTakeover true, .processFrameBoundary]
    (by decide)

end AudioBus
